import Mathlib

/-!
Verification development for the tg-botty journaling bot.

Shallow embedding of the repository's data model and operations:
  - `models.py`   : the five SQLAlchemy tables become Lean structures; the
    database becomes a `DB` record of row lists.  Pure bookkeeping columns
    that no verified property mentions (`created_at`, `updated_at`, surrogate
    primary keys of `Response` and `Schedule`) are omitted; `responded_at`
    is kept because responses carry a timestamp.
  - `bot.py`      : `get_or_create_user`, `get_conversation_state`,
    `update_conversation_state`, `get_next_question`, `get_question_options`,
    `journal_command`, `handle_answer_callback`, and the
    `confirm_clear_yes` branch of `handle_settings_callback`
    (`erase_user_data` below).  Transport side effects (message sending,
    Markdown rendering) are dropped; each handler returns the committed
    database together with an outcome tag describing the reply sent.
    SQLAlchemy queries `.filter_by(...).first()` become `List.find?`;
    mutating a fetched ORM row becomes a map over the row list keyed the
    same way the query was keyed; `session.commit()` boundaries are kept:
    every `DB` value a handler returns or passes onward is a committed
    snapshot.  An uncaught Python exception (for example `AttributeError`
    on `None`) is modelled by the `pyError` outcome, with the database as
    committed at the moment the exception is raised.
  - `scheduler.py`: `add_user_schedule`, `get_user_schedules`.
  - `analytics.py`: `get_user_streak`; the SQL query producing the distinct
    response dates in descending order becomes the list argument
    `response_dates`, and `today` is passed explicitly.  Calendar dates are
    integers (days), matching the one-day arithmetic of the source.
  - `questions.py`: the static `QUESTION_BANK`.
-/

namespace TgBotty

/-- A user row (`models.User`).  `timezone` defaults to the configured
default `"UTC"` (`config.Settings.default_timezone`). -/
structure User where
  id : Int
  telegram_id : Int
  username : Option String
  timezone : String
  is_active : Bool
deriving DecidableEq

/-- A question row (`models.Question`). -/
structure Question where
  id : Int
  category : String
  question_text : String
  response_type : String
  order : Int
  is_active : Bool
deriving DecidableEq

/-- A response row (`models.Response`).  `responded_at` is the timestamp the
row is created with (`datetime.utcnow` at insert time). -/
structure Response where
  user_id : Int
  question_id : Int
  answer : String
  responded_at : Int
  session_id : Option String
deriving DecidableEq

/-- A conversation-state row (`models.ConversationState`): one row per
telegram id, three independently nullable columns. -/
structure ConvState where
  telegram_id : Int
  current_question_id : Option Int
  session_id : Option String
  state : Option String
deriving DecidableEq

/-- A schedule row (`models.Schedule`). -/
structure Schedule where
  user_id : Int
  time : String
  is_enabled : Bool
deriving DecidableEq

/-- The committed database: one list of rows per table. -/
structure DB where
  users : List User
  questions : List Question
  responses : List Response
  convStates : List ConvState
  schedules : List Schedule
deriving DecidableEq

/-- `session.query(User).filter_by(telegram_id=...).first()`. -/
def queryUser (db : DB) (telegram_id : Int) : Option User :=
  db.users.find? (fun u => u.telegram_id == telegram_id)

/-- `session.query(ConversationState).filter_by(telegram_id=...).first()`. -/
def queryConvState (db : DB) (telegram_id : Int) : Option ConvState :=
  db.convStates.find? (fun cs => cs.telegram_id == telegram_id)

/-- `session.query(Question).filter_by(id=...).first()`. -/
def queryQuestion (db : DB) (question_id : Int) : Option Question :=
  db.questions.find? (fun q => q.id == question_id)

/-- Mutating the ORM row fetched by telegram id and committing: every row of
the table matching the key is rewritten by `f` (the table carries a unique
index on `telegram_id`, so at most one row matches). -/
def updateConvRows (db : DB) (telegram_id : Int) (f : ConvState → ConvState) : DB :=
  { db with convStates :=
      db.convStates.map (fun cs => if cs.telegram_id == telegram_id then f cs else cs) }

/-- Autoincrement primary key for a freshly inserted user. -/
def nextUserId (db : DB) : Int :=
  (db.users.foldl (fun m u => max m u.id) 0) + 1

/-- `bot.get_or_create_user` (bot.py lines 28-40). -/
def get_or_create_user (db : DB) (telegram_id : Int) (username : Option String) :
    DB × User :=
  match queryUser db telegram_id with
  | some u => (db, u)
  | none =>
    let u : User :=
      { id := nextUserId db, telegram_id := telegram_id, username := username,
        timezone := "UTC", is_active := true }
    ({ db with users := db.users ++ [u] }, u)

/-- A freshly constructed `ConversationState(telegram_id=...)` row: every
nullable column defaults to null. -/
def blankState (telegram_id : Int) : ConvState :=
  { telegram_id := telegram_id, current_question_id := none,
    session_id := none, state := none }

/-- `bot.get_conversation_state` (bot.py lines 43-54). -/
def get_conversation_state (db : DB) (telegram_id : Int) : DB × ConvState :=
  match queryConvState db telegram_id with
  | some cs => (db, cs)
  | none =>
    ({ db with convStates := db.convStates ++ [blankState telegram_id] },
     blankState telegram_id)

/-- The field assignments of `bot.update_conversation_state` (bot.py
lines 67-72): each field is overwritten only when the argument is not None. -/
def applyStateSets (cs : ConvState) (question_id : Option Int)
    (session_id : Option String) (state : Option String) : ConvState :=
  { cs with
    current_question_id :=
      match question_id with
      | some q => some q
      | none => cs.current_question_id,
    session_id :=
      match session_id with
      | some s => some s
      | none => cs.session_id,
    state :=
      match state with
      | some s => some s
      | none => cs.state }

/-- `bot.update_conversation_state` (bot.py lines 57-76): fetch or create the
row, then assign the not-None arguments and commit. -/
def update_conversation_state (db : DB) (telegram_id : Int) (question_id : Option Int)
    (session_id : Option String) (state : Option String) : DB :=
  match queryConvState db telegram_id with
  | some _ =>
    updateConvRows db telegram_id (fun cs => applyStateSets cs question_id session_id state)
  | none =>
    { db with convStates :=
        db.convStates ++ [applyStateSets (blankState telegram_id) question_id session_id state] }

/-- `order_by(Question.order).first()` over a filtered row list: the first
row of minimal `order` (stable with respect to the incoming list). -/
def minByOrder (qs : List Question) : Option Question :=
  qs.foldl
    (fun acc q =>
      match acc with
      | none => some q
      | some b => if q.order < b.order then some q else some b)
    none

/-- The first-question query of `bot.get_next_question` (bot.py line 84). -/
def firstQuestion (db : DB) : Option Question :=
  minByOrder (db.questions.filter (fun q => q.is_active))

/-- The next-question query of `bot.get_next_question` (bot.py lines 87-90):
the first active question with strictly greater `order`. -/
def nextAfterOrder (db : DB) (o : Int) : Option Question :=
  minByOrder (db.questions.filter (fun q => q.is_active && decide (o < q.order)))

/-- `bot.get_next_question` (bot.py lines 79-93).  With a current question id
the source first fetches the current row and reads `current_q.order`; when no
row with that id exists this raises `AttributeError` on `None`, modelled as
`Except.error`. -/
def get_next_question (db : DB) : Option Int → Except Unit (Option Question)
  | none => Except.ok (firstQuestion db)
  | some current_question_id =>
    match queryQuestion db current_question_id with
    | none => Except.error ()
    | some current_q => Except.ok (nextAfterOrder db current_q.order)

/-- An inline-keyboard button: display text and callback token. -/
structure Button where
  text : String
  callback_data : String
deriving DecidableEq

/-- A `questions.QUESTION_BANK` entry; a dict without an `"options"` key
would carry `none`. -/
structure BankEntry where
  category : String
  question_text : String
  response_type : String
  options : Option (List String)
  order : Int
deriving DecidableEq

/-- `questions.QUESTION_BANK` (questions.py lines 3-123). -/
def QUESTION_BANK : List BankEntry :=
  [ { category := "mood", question_text := "How are you feeling right now?",
      response_type := "yes_no",
      options := some ["Great 😊", "Good 🙂", "Okay 😐", "Not great 😔"], order := 1 },
    { category := "mood", question_text := "Do you feel energized today?",
      response_type := "yes_no", options := some ["Yes ⚡", "No 😴"], order := 2 },
    { category := "mood", question_text := "Are you feeling stressed or anxious?",
      response_type := "yes_no", options := some ["Yes 😰", "No 😌"], order := 3 },
    { category := "gratitude", question_text := "Did something make you smile today?",
      response_type := "yes_no", options := some ["Yes 😊", "No 😐"], order := 4 },
    { category := "gratitude",
      question_text := "Are you grateful for someone in your life right now?",
      response_type := "yes_no", options := some ["Yes ❤️", "No"], order := 5 },
    { category := "gratitude",
      question_text := "Did you experience a moment of beauty or peace today?",
      response_type := "yes_no", options := some ["Yes 🌟", "No"], order := 6 },
    { category := "productivity",
      question_text := "Did you accomplish something you're proud of today?",
      response_type := "yes_no", options := some ["Yes 🎉", "No"], order := 7 },
    { category := "productivity",
      question_text := "Are you making progress on your important goals?",
      response_type := "yes_no", options := some ["Yes 🎯", "No"], order := 8 },
    { category := "productivity", question_text := "Did you focus well today?",
      response_type := "yes_no", options := some ["Yes 🧠", "No 😵"], order := 9 },
    { category := "productivity",
      question_text := "Do you have a clear plan for tomorrow?",
      response_type := "yes_no", options := some ["Yes 📝", "No"], order := 10 },
    { category := "self_care", question_text := "Did you get enough sleep last night?",
      response_type := "yes_no", options := some ["Yes 😴", "No 🥱"], order := 11 },
    { category := "self_care",
      question_text := "Did you exercise or move your body today?",
      response_type := "yes_no", options := some ["Yes 💪", "No"], order := 12 },
    { category := "self_care", question_text := "Did you eat healthy meals today?",
      response_type := "yes_no", options := some ["Yes 🥗", "No"], order := 13 },
    { category := "self_care", question_text := "Did you take time for yourself today?",
      response_type := "yes_no", options := some ["Yes 🧘", "No"], order := 14 },
    { category := "self_care",
      question_text := "Did you connect with friends or family today?",
      response_type := "yes_no", options := some ["Yes 👥", "No"], order := 15 },
    { category := "self_care", question_text := "Did you stay hydrated today?",
      response_type := "yes_no", options := some ["Yes 💧", "No"], order := 16 } ]

/-- Callback token of a custom option button (bot.py line 111). -/
def answerToken (option : String) (question_id : Int) : String :=
  "answer_" ++ option ++ "_" ++ toString question_id

/-- The row-building loop of `bot.get_question_options` (bot.py lines
108-116): accumulate buttons into rows of two, flushing a final short row. -/
def chunkRows (question_id : Int) :
    List String → List Button → List (List Button) → List (List Button)
  | [], row, keyboard => if row = [] then keyboard else keyboard ++ [row]
  | o :: rest, row, keyboard =>
    let row' := row ++ [Button.mk o (answerToken o question_id)]
    if row'.length = 2 then chunkRows question_id rest [] (keyboard ++ [row'])
    else chunkRows question_id rest row' keyboard

/-- The default yes/no keyboard row (bot.py lines 102-105). -/
def yesNoRow (question_id : Int) : List Button :=
  [ Button.mk "Yes ✅" ("answer_yes_" ++ toString question_id),
    Button.mk "No ❌" ("answer_no_" ++ toString question_id) ]

/-- The skip button row appended to every keyboard (bot.py line 119). -/
def skipRow (question_id : Int) : List Button :=
  [Button.mk "Skip ⏭️" ("skip_" ++ toString question_id)]

/-- `bot.get_question_options` (bot.py lines 96-121): look the question's
text up in the static bank; fall back to yes/no when no entry matches or
the entry carries no options; always append the skip row. -/
def get_question_options (question : Question) : List (List Button) :=
  let q_data := QUESTION_BANK.find? (fun b => b.question_text == question.question_text)
  let keyboard :=
    match q_data with
    | none => [yesNoRow question.id]
    | some b =>
      match b.options with
      | none => [yesNoRow question.id]
      | some opts => chunkRows question.id opts [] []
  keyboard ++ [skipRow question.id]

/-- A decoded answer callback token: `skip_{qid}` or `answer_{text}_{qid}`
(the transport round-trips an answer string and a question id). -/
inductive Callback where
  | skip (question_id : Int)
  | answer (text : String) (question_id : Int)
deriving DecidableEq

/-- The token parsing of `bot.handle_answer_callback` (bot.py lines 313-319):
a skip token becomes the sentinel answer `"skipped"`. -/
def parseCallback : Callback → String × Int
  | Callback.skip qid => ("skipped", qid)
  | Callback.answer t qid => (t, qid)

/-- The visible result of an answer callback. -/
inductive AnswerOutcome where
  /-- "Session expired. Use /journal to start a new session." (line 325). -/
  | expired
  /-- The next question was displayed (lines 359-363). -/
  | asked (q : Question)
  /-- The completion message was displayed (lines 370-378). -/
  | complete
  /-- An uncaught Python exception escaped the handler. -/
  | pyError
deriving DecidableEq

/-- Lines 341-368 of `bot.handle_answer_callback`: fetch the next question
relative to the submitted id and either advance the state to it or mark the
session complete (nulling `state` and `current_question_id` only; the
`session_id` column is not touched).  Each branch commits separately. -/
def advanceAfterAnswer (db1 : DB) (telegram_id : Int) (question_id : Int) :
    DB × AnswerOutcome :=
  match get_next_question db1 (some question_id) with
  | Except.error _ => (db1, AnswerOutcome.pyError)
  | Except.ok (some next_question) =>
    (updateConvRows db1 telegram_id
       (fun c => { c with current_question_id := some next_question.id }),
     AnswerOutcome.asked next_question)
  | Except.ok none =>
    (updateConvRows db1 telegram_id
       (fun c => { c with state := none, current_question_id := none }),
     AnswerOutcome.complete)

/-- `bot.handle_answer_callback` (bot.py lines 308-380).  The guard (line
324) checks only that a conversation-state row exists with
`state == "journaling"`; a non-skip answer first inserts and commits a
Response row (lines 330-339) before the state is advanced (the two commits
are separate).  A missing user row on the non-skip path raises
`AttributeError` before anything is committed. -/
def handle_answer_callback (db : DB) (telegram_id : Int) (cb : Callback) (now : Int) :
    DB × AnswerOutcome :=
  let answer := (parseCallback cb).1
  let question_id := (parseCallback cb).2
  match queryConvState db telegram_id with
  | none => (db, AnswerOutcome.expired)
  | some conv_state =>
    if conv_state.state ≠ some "journaling" then (db, AnswerOutcome.expired)
    else if answer = "skipped" then
      advanceAfterAnswer db telegram_id question_id
    else
      match queryUser db telegram_id with
      | none => (db, AnswerOutcome.pyError)
      | some user =>
        advanceAfterAnswer
          { db with responses := db.responses ++
              [{ user_id := user.id, question_id := question_id, answer := answer,
                 responded_at := now, session_id := conv_state.session_id }] }
          telegram_id question_id

/-- The visible result of the /journal command. -/
inductive JournalOutcome where
  | inactive
  | noQuestions
  | asked (q : Question)
deriving DecidableEq

/-- `bot.journal_command` (bot.py lines 177-215): get or create the user,
refuse inactive accounts, pick the first active question (this is
`get_next_question` with no current id) and set the conversation state to
(first question, fresh session id, "journaling").  The fresh `uuid4` session
id is passed in as `session_id`. -/
def journal_command (db : DB) (telegram_id : Int) (username : Option String)
    (session_id : String) : DB × JournalOutcome :=
  let created := get_or_create_user db telegram_id username
  let db1 := created.1
  let user := created.2
  if !user.is_active then (db1, JournalOutcome.inactive)
  else
    match firstQuestion db1 with
    | none => (db1, JournalOutcome.noQuestions)
    | some first_question =>
      (update_conversation_state db1 telegram_id (some first_question.id)
         (some session_id) (some "journaling"),
       JournalOutcome.asked first_question)

/-- The timezone update of `scheduler.add_user_schedule` (scheduler.py
lines 112-114): rewrite the found user's timezone when the argument is
truthy (Python `if timezone_str:` is false for both None and the empty
string). -/
def tzUpdatedUsers (users : List User) (telegram_id : Int)
    (timezone_str : Option String) : List User :=
  match timezone_str with
  | none => users
  | some tz =>
    if tz = "" then users
    else users.map (fun v =>
      if v.telegram_id == telegram_id then { v with timezone := tz } else v)

/-- `scheduler.add_user_schedule` (scheduler.py lines 102-132): find the
user; update the timezone when truthy; delete every schedule row of the
user; insert one enabled row per given time. -/
def add_user_schedule (db : DB) (telegram_id : Int) (times : List String)
    (timezone_str : Option String) : DB :=
  match queryUser db telegram_id with
  | none => db
  | some user =>
    { db with
      users := tzUpdatedUsers db.users telegram_id timezone_str,
      schedules :=
        db.schedules.filter (fun s => !(s.user_id == user.id)) ++
          times.map (fun t => { user_id := user.id, time := t, is_enabled := true }) }

/-- `scheduler.get_user_schedules` (scheduler.py lines 160-175): the list of
`{"time": ..., "enabled": ...}` dicts for the user's schedule rows. -/
def get_user_schedules (db : DB) (telegram_id : Int) : List (String × Bool) :=
  match queryUser db telegram_id with
  | none => []
  | some user =>
    (db.schedules.filter (fun s => s.user_id == user.id)).map
      (fun s => (s.time, s.is_enabled))

/-- The `confirm_clear_yes` branch of `bot.handle_settings_callback`
(bot.py lines 452-457): `session.delete(user)` removes the user row and,
through the `cascade="all, delete-orphan"` relationships of `models.User`
(models.py lines 31-36), the user's Schedule and Response rows.
`ConversationState` has no relationship to `User`, so its row is not
touched.  With no matching user the branch commits nothing. -/
def erase_user_data (db : DB) (telegram_id : Int) : DB :=
  match queryUser db telegram_id with
  | none => db
  | some user =>
    { db with
      users := db.users.filter (fun v => !(v.id == user.id)),
      schedules := db.schedules.filter (fun s => !(s.user_id == user.id)),
      responses := db.responses.filter (fun r => !(r.user_id == user.id)) }

/-- The streak loop of `analytics.get_user_streak` (analytics.py lines
27-36): walk the distinct response dates in descending order; a date equal
to the expected date or one day before it extends the streak, anything else
ends it. -/
def streakLoop : List Int → Int → Nat → Nat
  | [], _, streak => streak
  | response_date :: rest, current_date, streak =>
    if response_date = current_date ∨ response_date = current_date - 1 then
      streakLoop rest (response_date - 1) (streak + 1)
    else streak

/-- `analytics.get_user_streak` (analytics.py lines 9-39).  `response_dates`
is the result of the distinct-dates query ordered descending; `today` is
`datetime.utcnow().date()` as a day number. -/
def get_user_streak (today : Int) (response_dates : List Int) : Nat :=
  if response_dates = [] then 0
  else streakLoop response_dates today 0

/-- The days `[t, t-1, ..., t-k+1]`: k consecutive calendar dates listed
descending from `t`. -/
def descRun (t : Int) : Nat → List Int
  | 0 => []
  | k + 1 => t :: descRun (t - 1) k

/-- One user-facing operation of the conversation core, for reachability
statements over the conversation-state table. -/
inductive Op where
  /-- `get_conversation_state`: creates a blank row when none exists. -/
  | createState (telegram_id : Int)
  /-- `/journal` (`journal_command`) with a fresh session id. -/
  | startSession (telegram_id : Int) (username : Option String) (session_id : String)
  /-- An answer or skip button press (`handle_answer_callback`). -/
  | submitAnswer (telegram_id : Int) (cb : Callback) (now : Int)
deriving DecidableEq

/-- The committed database after one operation. -/
def step (db : DB) : Op → DB
  | Op.createState tid => (get_conversation_state db tid).1
  | Op.startSession tid username sid => (journal_command db tid username sid).1
  | Op.submitAnswer tid cb now => (handle_answer_callback db tid cb now).1

/-- The committed database after a sequence of operations. -/
def runOps (db : DB) : List Op → DB
  | [] => db
  | op :: rest => runOps (step db op) rest

/-- The spec's mode invariant for one conversation-state row: mode is
"journaling" exactly when both the current question id and the session id
are non-null. -/
def StateInv (cs : ConvState) : Prop :=
  cs.state = some "journaling" ↔
    (cs.current_question_id ≠ none ∧ cs.session_id ≠ none)

instance : DecidablePred StateInv := fun cs => by
  unfold StateInv; infer_instance

/-- The mode invariant over every conversation-state row. -/
def DBInv (db : DB) : Prop := ∀ cs ∈ db.convStates, StateInv cs

instance : DecidablePred DBInv := fun db => by
  unfold DBInv; infer_instance

/-- The unique index on `conversation_states.telegram_id`: no two rows share
a telegram id. -/
def TidsNodup (db : DB) : Prop :=
  (db.convStates.map (fun cs => cs.telegram_id)).Nodup

instance : DecidablePred TidsNodup := fun db => by
  unfold TidsNodup; infer_instance

/-- Spec-side validity of a persisted time-of-day, following §6 of the spec:
a zero-padded 24-hour "HH:MM" string. -/
def specValidTime (s : String) : Bool :=
  match s.toList with
  | [h1, h2, c, m1, m2] =>
    h1.isDigit && h2.isDigit && c == ':' && m1.isDigit && m2.isDigit &&
      decide (10 * ((h1.toNat : Int) - 48) + ((h2.toNat : Int) - 48) < 24) &&
      decide (10 * ((m1.toNat : Int) - 48) + ((m2.toNat : Int) - 48) < 60)
  | _ => false

/-- Statement helper: the conversation-state table produced by the
advance step of `handle_answer_callback` relative to the answered
question `q` — current question moved to the next active one, or, when
none remains, current question and mode nulled (the session id column is
never written by this step). -/
def advancedConvStates (db : DB) (telegram_id : Int) (q : Question) : List ConvState :=
  match nextAfterOrder db q.order with
  | some nq =>
    db.convStates.map (fun c =>
      if c.telegram_id == telegram_id then { c with current_question_id := some nq.id } else c)
  | none =>
    db.convStates.map (fun c =>
      if c.telegram_id == telegram_id then { c with state := none, current_question_id := none } else c)

/-- Statement helper: the reply of the advance step — the next question,
or the completion message. -/
def advanceOutcome (db : DB) (q : Question) : AnswerOutcome :=
  match nextAfterOrder db q.order with
  | some nq => AnswerOutcome.asked nq
  | none => AnswerOutcome.complete

/-! Concrete rows and databases used by witnesses, counterexamples and the
spec's two-question scenario. -/

/-- An active user, telegram id 100, primary key 1. -/
def exUser : User := ⟨1, 100, none, "UTC", true⟩

/-- A mood question, id 1, first in catalog order. -/
def exQ1 : Question := ⟨1, "mood", "How are you feeling right now?", "yes_no", 1, true⟩

/-- A gratitude question, id 2, second in catalog order. -/
def exQ2 : Question := ⟨2, "gratitude", "Did something make you smile today?", "yes_no", 4, true⟩

/-- A question whose text matches no bank entry. -/
def exQOther : Question := ⟨42, "misc", "Unknown question?", "yes_no", 99, true⟩

/-- Fresh database for the two-question scenario: one user, two questions,
no responses, no conversation state. -/
def dbScen : DB := ⟨[exUser], [exQ1, exQ2], [], [], []⟩

/-- The committed database after the spec's two-question scenario:
/journal, answer "yes" on question 1, skip question 2. -/
def scenarioFinal : DB :=
  (handle_answer_callback
    (handle_answer_callback (journal_command dbScen 100 none "sess").1
      100 (Callback.answer "yes" 1) 11).1
    100 (Callback.skip 2) 12).1

/-- Database whose conversation state is journaling at question 2: a
submission carrying question id 1 is stale. -/
def dbStale : DB := ⟨[exUser], [exQ1, exQ2], [], [⟨100, some 2, some "s", some "journaling"⟩], []⟩

/-- Database journaling at question 1 with only question 1 in the catalog:
a submission carrying an unknown question id crashes between the two
commits. -/
def dbCrash : DB := ⟨[exUser], [exQ1], [], [⟨100, some 1, some "s", some "journaling"⟩], []⟩

/-- Database journaling at the last question (question 2). -/
def dbDone : DB := ⟨[exUser], [exQ1, exQ2], [], [⟨100, some 2, some "s", some "journaling"⟩], []⟩

/-- Database with just a user, for schedule registrations. -/
def dbOne : DB := ⟨[exUser], [], [], [], []⟩

/-- Database with one row in every user-owned table. -/
def dbFull : DB :=
  ⟨[exUser], [], [⟨1, 1, "yes", 0, some "s"⟩],
   [⟨100, some 1, some "s", some "journaling"⟩], [⟨1, "09:00", true⟩]⟩

/-! Equation lemmas for the answer handler. -/

/-- With no conversation-state row, or one whose mode is not "journaling",
the handler replies "Session expired" and commits nothing. -/
lemma handle_expired (db : DB) (tid : Int) (cb : Callback) (now : Int)
    (h : ∀ cs, queryConvState db tid = some cs → cs.state ≠ some "journaling") :
    handle_answer_callback db tid cb now = (db, AnswerOutcome.expired) := by
  unfold handle_answer_callback
  cases hq : queryConvState db tid with
  | none => rfl
  | some cs => simp [h cs hq]

/-- A callback parsing to the "skipped" sentinel goes straight to the
advance step without inserting a Response row. -/
lemma handle_sentinel_eq (db : DB) (tid : Int) (cb : Callback) (now : Int) (cs : ConvState)
    (h1 : queryConvState db tid = some cs) (h2 : cs.state = some "journaling")
    (h3 : (parseCallback cb).1 = "skipped") :
    handle_answer_callback db tid cb now = advanceAfterAnswer db tid (parseCallback cb).2 := by
  unfold handle_answer_callback
  rw [h1]
  simp [h2, h3]

/-- A non-skip answer first commits its Response row, then advances. -/
lemma handle_answer_eq (db : DB) (tid qid : Int) (now : Int) (ans : String)
    (cs : ConvState) (u : User)
    (h1 : queryConvState db tid = some cs) (h2 : cs.state = some "journaling")
    (h3 : ans ≠ "skipped") (h4 : queryUser db tid = some u) :
    handle_answer_callback db tid (Callback.answer ans qid) now
      = advanceAfterAnswer
          { db with responses := db.responses ++
              [{ user_id := u.id, question_id := qid, answer := ans,
                 responded_at := now, session_id := cs.session_id }] }
          tid qid := by
  unfold handle_answer_callback
  rw [h1]
  simp [parseCallback, h2, h3, h4]

/-- A non-skip answer with no user row raises before anything is committed. -/
lemma handle_nouser_eq (db : DB) (tid qid : Int) (now : Int) (ans : String) (cs : ConvState)
    (h1 : queryConvState db tid = some cs) (h2 : cs.state = some "journaling")
    (h3 : ans ≠ "skipped") (h4 : queryUser db tid = none) :
    handle_answer_callback db tid (Callback.answer ans qid) now = (db, AnswerOutcome.pyError) := by
  unfold handle_answer_callback
  rw [h1]
  simp [parseCallback, h2, h3, h4]

/-- An unknown submitted question id makes the next-question fetch raise. -/
lemma advance_crash (db1 : DB) (tid qid : Int) (h : queryQuestion db1 qid = none) :
    advanceAfterAnswer db1 tid qid = (db1, AnswerOutcome.pyError) := by
  simp only [advanceAfterAnswer, get_next_question, h]

/-- When a next active question exists, the advance step moves the current
question to it. -/
lemma advance_asked (db1 : DB) (tid qid : Int) (q nq : Question)
    (hq : queryQuestion db1 qid = some q) (hnq : nextAfterOrder db1 q.order = some nq) :
    advanceAfterAnswer db1 tid qid
      = (updateConvRows db1 tid (fun c => { c with current_question_id := some nq.id }),
         AnswerOutcome.asked nq) := by
  simp only [advanceAfterAnswer, get_next_question, hq, hnq]

/-- When no next active question exists, the advance step nulls mode and
current question (only). -/
lemma advance_complete (db1 : DB) (tid qid : Int) (q : Question)
    (hq : queryQuestion db1 qid = some q) (hnq : nextAfterOrder db1 q.order = none) :
    advanceAfterAnswer db1 tid qid
      = (updateConvRows db1 tid (fun c => { c with state := none, current_question_id := none }),
         AnswerOutcome.complete) := by
  simp only [advanceAfterAnswer, get_next_question, hq, hnq]

/-! Mode-invariant machinery. -/

/-- Nulling mode and current question restores the invariant on any row. -/
lemma StateInv_nulled (c : ConvState) :
    StateInv { c with state := none, current_question_id := none } := by
  simp [StateInv]

/-- A blank row satisfies the invariant. -/
lemma StateInv_blank (tid : Int) : StateInv (blankState tid) := by
  simp [StateInv, blankState]

/-- Setting all three columns at once to journaling values satisfies the
invariant on any row. -/
lemma StateInv_all_some (c : ConvState) (q : Int) (s : String) :
    StateInv { c with current_question_id := some q, session_id := some s,
                      state := some "journaling" } := by
  simp [StateInv]

/-- A mapped conversation-state update preserves the invariant provided the
rewrite preserves it on every matching row. -/
lemma DBInv_updateConvRows (db : DB) (tid : Int) (f : ConvState → ConvState)
    (hinv : DBInv db)
    (hf : ∀ c ∈ db.convStates, c.telegram_id = tid → StateInv (f c)) :
    DBInv (updateConvRows db tid f) := by
  intro c hc
  replace hc : c ∈ db.convStates.map (fun x => if x.telegram_id == tid then f x else x) := hc
  obtain ⟨x, hx, rfl⟩ := List.mem_map.mp hc
  by_cases h : x.telegram_id = tid
  · rw [if_pos (by simp [h])]
    exact hf x hx h
  · rw [if_neg (by simp [h])]
    exact hinv x hx

/-- A mapped update whose rewrite keeps the telegram id keeps the unique
index intact. -/
lemma tids_updateConvRows (db : DB) (tid : Int) (f : ConvState → ConvState)
    (hf : ∀ c, (f c).telegram_id = c.telegram_id)
    (h : TidsNodup db) : TidsNodup (updateConvRows db tid f) := by
  unfold TidsNodup at *
  have heq : ((updateConvRows db tid f).convStates.map (fun cs => cs.telegram_id))
      = db.convStates.map (fun cs => cs.telegram_id) := by
    show ((db.convStates.map (fun x => if x.telegram_id == tid then f x else x)).map
        (fun cs => cs.telegram_id)) = _
    rw [List.map_map]
    apply List.map_congr_left
    intro x _
    by_cases hc : x.telegram_id = tid
    · simp [Function.comp, hc, hf]
    · simp [Function.comp, hc]
  rw [heq]
  exact h

/-- Appending a row satisfying the invariant preserves the invariant. -/
lemma DBInv_append (db : DB) (c : ConvState) (hc : StateInv c) (h : DBInv db) :
    DBInv { db with convStates := db.convStates ++ [c] } := by
  intro x hx
  replace hx : x ∈ db.convStates ++ [c] := hx
  rcases List.mem_append.mp hx with hx | hx
  · exact h x hx
  · rw [List.mem_singleton.mp hx]
    exact hc

/-- Appending a row for a telegram id with no existing row keeps the unique
index intact. -/
lemma tids_append (db : DB) (tid : Int) (c : ConvState) (hc : c.telegram_id = tid)
    (hfind : queryConvState db tid = none) (h : TidsNodup db) :
    TidsNodup { db with convStates := db.convStates ++ [c] } := by
  unfold TidsNodup at *
  show ((db.convStates ++ [c]).map (fun cs => cs.telegram_id)).Nodup
  rw [List.map_append, List.nodup_append]
  refine ⟨h, by simp, ?_⟩
  intro a ha hb
  simp only [List.map_cons, List.map_nil, List.mem_singleton] at hb
  obtain ⟨x, hx, hxa⟩ := List.mem_map.mp ha
  have hnone := List.find?_eq_none.mp hfind x hx
  apply hnone
  simp [hxa, hb, hc]

/-- Under the unique index, any stored row carrying the queried telegram id
is the row the query returned. -/
lemma conv_unique (db : DB) (tid : Int) (cs c : ConvState)
    (hn : TidsNodup db) (hfind : queryConvState db tid = some cs)
    (hc : c ∈ db.convStates) (hct : c.telegram_id = tid) : c = cs := by
  have hmem : cs ∈ db.convStates := List.mem_of_find?_eq_some hfind
  have hpr : cs.telegram_id = tid := by simpa using List.find?_some hfind
  unfold TidsNodup at hn
  exact List.inj_on_of_nodup_map hn hc hmem (by rw [hct, hpr])

/-- The advance step preserves the invariant and the unique index. -/
lemma inv_advance (db1 : DB) (tid qid : Int) (cs : ConvState)
    (hn : TidsNodup db1) (hinv : DBInv db1)
    (hfind : queryConvState db1 tid = some cs) (hst : cs.state = some "journaling") :
    DBInv (advanceAfterAnswer db1 tid qid).1 ∧ TidsNodup (advanceAfterAnswer db1 tid qid).1 := by
  cases hqq : queryQuestion db1 qid with
  | none =>
    rw [advance_crash db1 tid qid hqq]
    exact ⟨hinv, hn⟩
  | some q =>
    cases hnq : nextAfterOrder db1 q.order with
    | none =>
      rw [advance_complete db1 tid qid q hqq hnq]
      exact ⟨DBInv_updateConvRows _ _ _ hinv (fun c _ _ => StateInv_nulled c),
             tids_updateConvRows _ _ _ (fun c => rfl) hn⟩
    | some nq =>
      rw [advance_asked db1 tid qid q nq hqq hnq]
      refine ⟨DBInv_updateConvRows _ _ _ hinv ?_, tids_updateConvRows _ _ _ (fun c => rfl) hn⟩
      intro c hc hct
      have hceq : c = cs := conv_unique db1 tid cs c hn hfind hc hct
      subst hceq
      have hsi := hinv c (List.mem_of_find?_eq_some hfind)
      have hsid : c.session_id ≠ none := (hsi.mp hst).2
      unfold StateInv
      simp [hst, hsid]

/-- The answer handler preserves the invariant and the unique index. -/
lemma inv_handle (db : DB) (tid : Int) (cb : Callback) (now : Int)
    (hn : TidsNodup db) (hinv : DBInv db) :
    DBInv (handle_answer_callback db tid cb now).1
      ∧ TidsNodup (handle_answer_callback db tid cb now).1 := by
  cases hq : queryConvState db tid with
  | none =>
    rw [handle_expired db tid cb now (by intro cs h; rw [hq] at h; cases h)]
    exact ⟨hinv, hn⟩
  | some cs =>
    by_cases hst : cs.state = some "journaling"
    · by_cases hskip : (parseCallback cb).1 = "skipped"
      · rw [handle_sentinel_eq db tid cb now cs hq hst hskip]
        exact inv_advance db tid (parseCallback cb).2 cs hn hinv hq hst
      · cases cb with
        | skip qid => exact absurd rfl hskip
        | answer ans qid =>
          replace hskip : ans ≠ "skipped" := hskip
          cases hu : queryUser db tid with
          | none =>
            rw [handle_nouser_eq db tid qid now ans cs hq hst hskip hu]
            exact ⟨hinv, hn⟩
          | some u =>
            rw [handle_answer_eq db tid qid now ans cs u hq hst hskip hu]
            exact inv_advance _ tid qid cs hn hinv hq hst
    · rw [handle_expired db tid cb now
        (by intro cs' h; rw [hq] at h; rw [(Option.some_inj.mp h).symm]; exact hst)]
      exact ⟨hinv, hn⟩

/-- `update_conversation_state` with all three columns set to journaling
values preserves the invariant and the unique index. -/
lemma inv_update_all_some (db : DB) (tid : Int) (q : Int) (s : String)
    (hn : TidsNodup db) (hinv : DBInv db) :
    DBInv (update_conversation_state db tid (some q) (some s) (some "journaling"))
      ∧ TidsNodup (update_conversation_state db tid (some q) (some s) (some "journaling")) := by
  unfold update_conversation_state
  cases hq : queryConvState db tid with
  | some cs =>
    refine ⟨DBInv_updateConvRows _ _ _ hinv ?_, tids_updateConvRows _ _ _ (fun c => rfl) hn⟩
    intro c _ _
    exact StateInv_all_some c q s
  | none =>
    constructor
    · apply DBInv_append _ _ _ hinv
      exact StateInv_all_some _ q s
    · exact tids_append db tid _ rfl hq hn

/-- The /journal command preserves the invariant and the unique index. -/
lemma inv_journal (db : DB) (tid : Int) (un : Option String) (sid : String)
    (hn : TidsNodup db) (hinv : DBInv db) :
    DBInv (journal_command db tid un sid).1 ∧ TidsNodup (journal_command db tid un sid).1 := by
  unfold journal_command get_or_create_user
  cases hu : queryUser db tid with
  | some u =>
    by_cases ha : u.is_active
    · simp only [ha, Bool.not_true, Bool.false_eq_true, if_false]
      cases hfq : firstQuestion db with
      | none => exact ⟨hinv, hn⟩
      | some fq => exact inv_update_all_some db tid fq.id sid hn hinv
    · simp only [Bool.not_eq_true] at ha
      simp only [ha, Bool.not_false, if_true]
      exact ⟨hinv, hn⟩
  | none =>
    simp only [Bool.not_true, Bool.false_eq_true, if_false]
    cases hfq : firstQuestion { db with users := db.users ++
        [{ id := nextUserId db, telegram_id := tid, username := un,
           timezone := "UTC", is_active := true }] } with
    | none => exact ⟨hinv, hn⟩
    | some fq => exact inv_update_all_some _ tid fq.id sid hn hinv

/-- `get_conversation_state` preserves the invariant and the unique index. -/
lemma inv_get_conversation_state (db : DB) (tid : Int)
    (hn : TidsNodup db) (hinv : DBInv db) :
    DBInv (get_conversation_state db tid).1 ∧ TidsNodup (get_conversation_state db tid).1 := by
  unfold get_conversation_state
  cases hq : queryConvState db tid with
  | some cs => exact ⟨hinv, hn⟩
  | none =>
    exact ⟨DBInv_append db _ (StateInv_blank tid) hinv,
           tids_append db tid _ rfl hq hn⟩

/-- Every operation of the conversation core preserves the invariant and the
unique index. -/
lemma step_preserves (db : DB) (op : Op) (hn : TidsNodup db) (hinv : DBInv db) :
    DBInv (step db op) ∧ TidsNodup (step db op) := by
  cases op with
  | createState tid => exact inv_get_conversation_state db tid hn hinv
  | startSession tid un sid => exact inv_journal db tid un sid hn hinv
  | submitAnswer tid cb now => exact inv_handle db tid cb now hn hinv

/-- Running any operation sequence preserves the invariant and the unique
index. -/
lemma runOps_preserves (ops : List Op) : ∀ (db : DB), TidsNodup db → DBInv db →
    DBInv (runOps db ops) ∧ TidsNodup (runOps db ops) := by
  induction ops with
  | nil => exact fun db hn hinv => ⟨hinv, hn⟩
  | cons op rest ih =>
    intro db hn hinv
    have h := step_preserves db op hn hinv
    exact ih (step db op) h.2 h.1

/-- An empty conversation-state table satisfies the invariant. -/
lemma dbinv_of_empty (db : DB) (h : db.convStates = []) : DBInv db := by
  intro cs hcs
  rw [h] at hcs
  cases hcs

/-- An empty conversation-state table satisfies the unique index. -/
lemma tids_of_empty (db : DB) (h : db.convStates = []) : TidsNodup db := by
  unfold TidsNodup
  rw [h]
  simp

/-! Schedule-registry lemmas. -/

/-- A timezone rewrite keyed on the telegram id commutes with the
telegram-id query. -/
lemma find?_map_tz (l : List User) (tid : Int) (tz : String) :
    (l.map (fun v => if v.telegram_id == tid then { v with timezone := tz } else v)).find?
        (fun v => v.telegram_id == tid)
      = (l.find? (fun v => v.telegram_id == tid)).map (fun v => { v with timezone := tz }) := by
  induction l with
  | nil => rfl
  | cons a l ih =>
    rw [List.map_cons]
    by_cases h : a.telegram_id = tid
    · rw [if_pos (by simp [h])]
      rw [List.find?_cons_of_pos _ (by simp [h]), List.find?_cons_of_pos _ (by simp [h])]
      rfl
    · rw [if_neg (by simp [h])]
      rw [List.find?_cons_of_neg _ (by simp [h]), List.find?_cons_of_neg _ (by simp [h])]
      exact ih

/-- The timezone query result after the truthy-timezone rewrite. -/
lemma find?_tzUpdatedUsers (l : List User) (tid : Int) (tz : Option String) (u : User)
    (hu : l.find? (fun v => v.telegram_id == tid) = some u) :
    ∃ u', (tzUpdatedUsers l tid tz).find? (fun v => v.telegram_id == tid) = some u'
      ∧ u'.id = u.id := by
  cases tz with
  | none => exact ⟨u, hu, rfl⟩
  | some t =>
    by_cases ht : t = ""
    · refine ⟨u, ?_, rfl⟩
      simp only [tzUpdatedUsers]
      rw [if_pos ht]
      exact hu
    · refine ⟨{ u with timezone := t }, ?_, rfl⟩
      simp only [tzUpdatedUsers]
      rw [if_neg ht, find?_map_tz, hu]
      rfl

/-- The user table written by a registration. -/
lemma add_user_schedule_users (db : DB) (tid : Int) (times : List String)
    (tz : Option String) (u : User) (hu : queryUser db tid = some u) :
    (add_user_schedule db tid times tz).users = tzUpdatedUsers db.users tid tz := by
  simp only [add_user_schedule, hu]

/-- After a schedule registration the user row is still found, with the same
primary key. -/
lemma queryUser_add_user_schedule (db : DB) (tid : Int) (times : List String)
    (tz : Option String) (u : User) (hu : queryUser db tid = some u) :
    ∃ u', queryUser (add_user_schedule db tid times tz) tid = some u' ∧ u'.id = u.id := by
  have h := find?_tzUpdatedUsers db.users tid tz u hu
  unfold queryUser
  rw [add_user_schedule_users db tid times tz u hu]
  exact h

/-- Registering with a truthy timezone rewrites the stored timezone, valid
IANA name or not. -/
lemma queryUser_add_tz (db : DB) (tid : Int) (times : List String) (tz : String)
    (u : User) (hu : queryUser db tid = some u) (htz : tz ≠ "") :
    queryUser (add_user_schedule db tid times (some tz)) tid = some { u with timezone := tz } := by
  have hu' : db.users.find? (fun v => v.telegram_id == tid) = some u := hu
  unfold queryUser
  rw [add_user_schedule_users db tid times (some tz) u hu]
  simp only [tzUpdatedUsers]
  rw [if_neg htz, find?_map_tz, hu']
  rfl

/-- The deleted-then-reinserted schedule table filtered back to the user is
exactly the inserted rows. -/
lemma schedules_filter_self (old : List Schedule) (i : Int) (times : List String) :
    ((old.filter (fun s => !(s.user_id == i)) ++
        times.map (fun t => ({ user_id := i, time := t, is_enabled := true } : Schedule))).filter
      (fun s => s.user_id == i))
    = times.map (fun t => ({ user_id := i, time := t, is_enabled := true } : Schedule)) := by
  rw [List.filter_append]
  have h1 : (old.filter (fun s => !(s.user_id == i))).filter (fun s => s.user_id == i) = [] := by
    rw [List.filter_filter]
    simp
  have h2 : ((times.map (fun t => ({ user_id := i, time := t, is_enabled := true } :
      Schedule))).filter (fun s => s.user_id == i))
      = times.map (fun t => ({ user_id := i, time := t, is_enabled := true } : Schedule)) := by
    apply List.filter_eq_self.mpr
    intro a ha
    obtain ⟨t, _, rfl⟩ := List.mem_map.mp ha
    simp
  rw [h1, h2, List.nil_append]

/-- The schedule table written by a registration. -/
lemma add_user_schedule_schedules (db : DB) (tid : Int) (times : List String)
    (tz : Option String) (u : User) (hu : queryUser db tid = some u) :
    (add_user_schedule db tid times tz).schedules
      = db.schedules.filter (fun s => !(s.user_id == u.id)) ++
          times.map (fun t => ({ user_id := u.id, time := t, is_enabled := true } : Schedule)) := by
  simp only [add_user_schedule, hu]

/-- A registration followed by a listing returns exactly the registered
times, each enabled, in input order — duplicates included. -/
lemma set_then_list (db : DB) (tid : Int) (times : List String) (tz : Option String)
    (u : User) (hu : queryUser db tid = some u) :
    get_user_schedules (add_user_schedule db tid times tz) tid
      = times.map (fun t => (t, true)) := by
  obtain ⟨u', hu', hid⟩ := queryUser_add_user_schedule db tid times tz u hu
  simp only [get_user_schedules, hu']
  rw [add_user_schedule_schedules db tid times tz u hu, hid, schedules_filter_self,
    List.map_map]
  rfl

/-! Erasure lemmas. -/

/-- A filter by one predicate then its negation is empty. -/
lemma filter_not_filter {α : Type} (l : List α) (p : α → Bool) :
    (l.filter (fun a => !(p a))).filter p = [] := by
  rw [List.filter_filter]
  simp

/-! Streak lemmas. -/

/-- On `k` consecutive descending dates starting at the expected date or one
day before it, the loop adds `k`. -/
lemma streakLoop_descRun (k : Nat) : ∀ (cur t : Int) (s : Nat),
    (t = cur ∨ t = cur - 1) → streakLoop (descRun t k) cur s = s + k := by
  induction k with
  | zero => intro cur t s _; rfl
  | succ k ih =>
    intro cur t s h
    show streakLoop (t :: descRun (t - 1) k) cur s = s + (k + 1)
    rw [streakLoop, if_pos h, ih (t - 1) (t - 1) (s + 1) (Or.inl rfl)]
    omega

/-- Past a gap of more than one uncovered day, the tail of the date list is
never examined. -/
lemma streakLoop_gap : ∀ (pre : List Int) (cur : Int) (s : Nat) (lastd d : Int)
    (rest : List Int), pre.getLast? = some lastd → lastd - d ≥ 3 →
    streakLoop (pre ++ d :: rest) cur s = streakLoop pre cur s := by
  intro pre
  induction pre with
  | nil => intro cur s lastd d rest h _; cases h
  | cons a pre ih =>
    intro cur s lastd d rest hlast hgap
    by_cases hc : a = cur ∨ a = cur - 1
    · show streakLoop (a :: (pre ++ d :: rest)) cur s = _
      rw [streakLoop, if_pos hc, streakLoop, if_pos hc]
      cases pre with
      | nil =>
        have ha : a = lastd := by
          simpa using hlast
        subst ha
        show streakLoop (d :: rest) (a - 1) (s + 1) = streakLoop [] (a - 1) (s + 1)
        simp only [streakLoop]
        rw [if_neg (by omega)]
      | cons b pre' =>
        exact ih (a - 1) (s + 1) lastd d rest (by rwa [List.getLast?_cons_cons] at hlast) hgap
    · show streakLoop (a :: (pre ++ d :: rest)) cur s = _
      rw [streakLoop, if_neg hc, streakLoop, if_neg hc]

/-- The empty guard of `get_user_streak` on a nonempty list. -/
lemma get_user_streak_cons (today : Int) (l : List Int) (h : l ≠ []) :
    get_user_streak today l = streakLoop l today 0 := by
  rw [get_user_streak, if_neg h]

/-! Keyboard lemma. -/

/-- The last row of an appended-to keyboard. -/
lemma getLast?_append_single {α : Type} (l : List α) (a : α) :
    (l ++ [a]).getLast? = some a :=
  List.getLast?_concat l

/-- The erased database, spelled out. -/
lemma erase_eq (db : DB) (tid : Int) (u : User) (hu : queryUser db tid = some u) :
    erase_user_data db tid
      = { db with
          users := db.users.filter (fun v => !(v.id == u.id)),
          schedules := db.schedules.filter (fun s => !(s.user_id == u.id)),
          responses := db.responses.filter (fun r => !(r.user_id == u.id)) } := by
  simp only [erase_user_data, hu]

/-- Erasing with no matching user commits nothing. -/
lemma erase_eq_none (db : DB) (tid : Int) (hu : queryUser db tid = none) :
    erase_user_data db tid = db := by
  simp only [erase_user_data, hu]

/-- Under the unique telegram-id index, any user row carrying the queried
telegram id is the row the query returned. -/
lemma user_unique (db : DB) (tid : Int) (u v : User)
    (hn : (db.users.map (fun x => x.telegram_id)).Nodup)
    (hu : queryUser db tid = some u)
    (hv : v ∈ db.users) (hvt : v.telegram_id = tid) : v = u := by
  have hmem : u ∈ db.users := List.mem_of_find?_eq_some hu
  have hpr : u.telegram_id = tid := by simpa using List.find?_some hu
  exact List.inj_on_of_nodup_map hn hv hmem (by rw [hvt, hpr])

/-- After erasure no user row for the telegram id survives. -/
lemma erase_users_filter (db : DB) (tid : Int) (u : User)
    (hn : (db.users.map (fun x => x.telegram_id)).Nodup)
    (hu : queryUser db tid = some u) :
    (erase_user_data db tid).users.filter (fun v => v.telegram_id == tid) = [] := by
  rw [erase_eq db tid u hu]
  apply List.filter_eq_nil_iff.mpr
  intro v hv
  have hvmem := List.mem_filter.mp hv
  intro hvt
  have hveq : v = u := user_unique db tid u v hn hu hvmem.1 (by simpa using hvt)
  have := hvmem.2
  rw [hveq] at this
  simp at this

/-- After erasure the telegram-id query finds no user. -/
lemma erase_queryUser (db : DB) (tid : Int) (u : User)
    (hn : (db.users.map (fun x => x.telegram_id)).Nodup)
    (hu : queryUser db tid = some u) :
    queryUser (erase_user_data db tid) tid = none := by
  apply List.find?_eq_none.mpr
  intro v hv
  have hnil := erase_users_filter db tid u hn hu
  intro hvt
  have : v ∈ (erase_user_data db tid).users.filter (fun v => v.telegram_id == tid) :=
    List.mem_filter.mpr ⟨hv, hvt⟩
  rw [hnil] at this
  cases this

/-- The fully evaluated skip submission: no Response row, conversation
state advanced relative to the submitted question. -/
lemma handle_skip_full (db : DB) (tid qid : Int) (now : Int) (cs : ConvState) (q : Question)
    (h1 : queryConvState db tid = some cs) (h2 : cs.state = some "journaling")
    (hq : queryQuestion db qid = some q) :
    handle_answer_callback db tid (Callback.skip qid) now
      = ({ db with convStates := advancedConvStates db tid q }, advanceOutcome db q) := by
  have hskip : handle_answer_callback db tid (Callback.skip qid) now
      = advanceAfterAnswer db tid qid :=
    handle_sentinel_eq db tid (Callback.skip qid) now cs h1 h2 rfl
  rw [hskip]
  cases hnq : nextAfterOrder db q.order with
  | some nq =>
    rw [advance_asked db tid qid q nq hq hnq]
    simp only [advancedConvStates, advanceOutcome, hnq]
    rfl
  | none =>
    rw [advance_complete db tid qid q hq hnq]
    simp only [advancedConvStates, advanceOutcome, hnq]
    rfl

/-- The fully evaluated non-skip submission: one Response row committed,
conversation state advanced relative to the submitted question. -/
lemma handle_answer_full (db : DB) (tid qid : Int) (now : Int) (ans : String)
    (cs : ConvState) (u : User) (q : Question)
    (h1 : queryConvState db tid = some cs) (h2 : cs.state = some "journaling")
    (h3 : ans ≠ "skipped") (h4 : queryUser db tid = some u)
    (hq : queryQuestion db qid = some q) :
    handle_answer_callback db tid (Callback.answer ans qid) now
      = ({ db with
            responses := db.responses ++
              [{ user_id := u.id, question_id := qid, answer := ans,
                 responded_at := now, session_id := cs.session_id }],
            convStates := advancedConvStates db tid q },
         advanceOutcome db q) := by
  rw [handle_answer_eq db tid qid now ans cs u h1 h2 h3 h4]
  have hq1 : queryQuestion { db with responses := db.responses ++
      [{ user_id := u.id, question_id := qid, answer := ans,
         responded_at := now, session_id := cs.session_id }] } qid = some q := hq
  cases hnq : nextAfterOrder db q.order with
  | some nq =>
    have hnq1 : nextAfterOrder { db with responses := db.responses ++
        [{ user_id := u.id, question_id := qid, answer := ans,
           responded_at := now, session_id := cs.session_id }] } q.order = some nq := hnq
    rw [advance_asked _ tid qid q nq hq1 hnq1]
    simp only [advancedConvStates, advanceOutcome, hnq]
    rfl
  | none =>
    have hnq1 : nextAfterOrder { db with responses := db.responses ++
        [{ user_id := u.id, question_id := qid, answer := ans,
           responded_at := now, session_id := cs.session_id }] } q.order = none := hnq
    rw [advance_complete _ tid qid q hq1 hnq1]
    simp only [advancedConvStates, advanceOutcome, hnq]
    rfl

/-! Claim theorems, witnesses and counterexamples. -/

/-- Claim C1, counterexample: with the stored conversation state journaling
at question 2, a submission carrying question id 1 — the claim's guard
premise, since 2 ≠ 1 — is not rejected: it is answered with the next
question after question 1 and a Response row is appended. -/
theorem stale_question_id_accepted :
    queryConvState dbStale 100
        = some ⟨100, some 2, some "s", some "journaling"⟩
    ∧ ((2 : Int) ≠ 1)
    ∧ (handle_answer_callback dbStale 100 (Callback.answer "yes" 1) 5).2
        ≠ AnswerOutcome.expired
    ∧ (handle_answer_callback dbStale 100 (Callback.answer "yes" 1) 5).1.responses
        = dbStale.responses ++ [⟨1, 1, "yes", 5, some "s"⟩] := by
  decide

/-- Claim C1, amended: the guard of the answer handler checks only the
stored mode.  When no conversation-state row exists or its mode is not
"journaling" the call fails with the stale-session reply ("Session
expired"), appends no Response row and leaves the whole database unchanged;
the stored current-question id is never compared with the submitted one. -/
theorem answer_guard_checks_mode_only (db : DB) (tid : Int) (cb : Callback) (now : Int)
    (h : ∀ cs, queryConvState db tid = some cs → cs.state ≠ some "journaling") :
    handle_answer_callback db tid cb now = (db, AnswerOutcome.expired) :=
  handle_expired db tid cb now h

/-- Witness for the amended C1: a database with no conversation state
rejects an answer and stays unchanged. -/
theorem answer_guard_checks_mode_only_witness :
    handle_answer_callback dbOne 100 (Callback.answer "yes" 1) 7
      = (dbOne, AnswerOutcome.expired) :=
  answer_guard_checks_mode_only dbOne 100 (Callback.answer "yes" 1) 7
    (fun _ h => Option.noConfusion h)

/-- Claim C2, counterexample: a submission whose question id has no Question
row fails (an uncaught exception, not a delivery error), yet the database
after the call differs from the database before it — the Response row is
committed while the conversation state is not advanced, the state the claim
rules out. -/
theorem partial_commit_observable :
    (handle_answer_callback dbCrash 100 (Callback.answer "yes" 999) 3).2
        = AnswerOutcome.pyError
    ∧ (handle_answer_callback dbCrash 100 (Callback.answer "yes" 999) 3).1.responses
        ≠ dbCrash.responses
    ∧ (handle_answer_callback dbCrash 100 (Callback.answer "yes" 999) 3).1.convStates
        = dbCrash.convStates := by
  decide

/-- Claim C2, amended: the Response insert and the conversation-state update
are committed separately.  When the next-question fetch fails after the
Response insert (here: the submitted question id has no Question row), the
call returns with the Response row persisted and the conversation state
exactly as before — an observable intermediate state. -/
theorem response_and_state_commit_separately (db : DB) (tid qid : Int) (now : Int)
    (ans : String) (cs : ConvState) (u : User)
    (h1 : queryConvState db tid = some cs) (h2 : cs.state = some "journaling")
    (h3 : ans ≠ "skipped") (h4 : queryUser db tid = some u)
    (h5 : queryQuestion db qid = none) :
    handle_answer_callback db tid (Callback.answer ans qid) now
      = ({ db with responses := db.responses ++
            [{ user_id := u.id, question_id := qid, answer := ans,
               responded_at := now, session_id := cs.session_id }] },
         AnswerOutcome.pyError) := by
  rw [handle_answer_eq db tid qid now ans cs u h1 h2 h3 h4]
  exact advance_crash _ tid qid h5

/-- Witness for the amended C2. -/
theorem response_and_state_commit_separately_witness :
    handle_answer_callback dbCrash 100 (Callback.answer "yes" 999) 3
      = ({ dbCrash with responses := dbCrash.responses ++ [⟨1, 999, "yes", 3, some "s"⟩] },
         AnswerOutcome.pyError) :=
  response_and_state_commit_separately dbCrash 100 999 3 "yes"
    ⟨100, some 1, some "s", some "journaling"⟩ exUser rfl rfl (by decide) rfl rfl

/-- Claim C3: in journaling mode, skipping the current question writes no
Response row while a non-skip answer appends exactly one row carrying the
user's primary key, the question id, the answer text, the stored session id
and the timestamp; in either case the state advances to the next question
or to completion; and the spec's two-question scenario (answer then skip)
ends with exactly one Response row, the mood answer. -/
theorem answer_and_skip_response_rows (db : DB) (tid qid : Int) (now : Int) (ans : String)
    (cs : ConvState) (u : User) (q : Question)
    (h1 : queryConvState db tid = some cs) (h2 : cs.state = some "journaling")
    (h3 : queryUser db tid = some u) (h4 : queryQuestion db qid = some q)
    (h5 : ans ≠ "skipped") :
    ((handle_answer_callback db tid (Callback.skip qid) now).1.responses = db.responses)
    ∧ ((handle_answer_callback db tid (Callback.answer ans qid) now).1.responses
        = db.responses ++ [{ user_id := u.id, question_id := qid, answer := ans,
                             responded_at := now, session_id := cs.session_id }])
    ∧ ((handle_answer_callback db tid (Callback.skip qid) now).1.convStates
        = advancedConvStates db tid q)
    ∧ ((handle_answer_callback db tid (Callback.answer ans qid) now).1.convStates
        = advancedConvStates db tid q)
    ∧ ((handle_answer_callback db tid (Callback.answer ans qid) now).2 = advanceOutcome db q)
    ∧ (scenarioFinal.responses
        = [{ user_id := 1, question_id := 1, answer := "yes",
             responded_at := 11, session_id := some "sess" }]) := by
  have hs := handle_skip_full db tid qid now cs q h1 h2 h4
  have ha := handle_answer_full db tid qid now ans cs u q h1 h2 h5 h3 h4
  refine ⟨?_, ?_, ?_, ?_, ?_, by decide⟩
  · rw [hs]
  · rw [ha]
  · rw [hs]
  · rw [ha]
  · rw [ha]

/-- Witness for C3: skipping writes no Response row. -/
theorem answer_and_skip_response_rows_witness :
    (handle_answer_callback dbStale 100 (Callback.skip 1) 5).1.responses
      = dbStale.responses :=
  (answer_and_skip_response_rows dbStale 100 1 5 "yes"
    ⟨100, some 2, some "s", some "journaling"⟩ exUser exQ1
    rfl rfl rfl rfl (by decide)).1

/-- Claim C4, counterexample: answering the last question completes the
session, but the resulting conversation-state row keeps its session id —
only the current question and the mode are nulled, so the claim's
"session-id = null" fails. -/
theorem completion_keeps_session_id :
    (handle_answer_callback dbDone 100 (Callback.answer "Yes 😊" 2) 7).2
        = AnswerOutcome.complete
    ∧ (handle_answer_callback dbDone 100 (Callback.answer "Yes 😊" 2) 7).1.convStates
        = [⟨100, none, some "s", none⟩]
    ∧ some "s" ≠ (none : Option String) := by
  decide

/-- Claim C4, amended: when the accepted answer's question has no following
active question, the handler returns the completion signal and rewrites the
user's conversation-state row with current-question = null and mode = null,
leaving the session id column untouched. -/
theorem completion_nulls_question_and_mode_only (db : DB) (tid qid : Int) (now : Int)
    (ans : String) (cs : ConvState) (u : User) (q : Question)
    (h1 : queryConvState db tid = some cs) (h2 : cs.state = some "journaling")
    (h3 : queryUser db tid = some u) (h4 : queryQuestion db qid = some q)
    (h5 : nextAfterOrder db q.order = none) (h6 : ans ≠ "skipped") :
    ((handle_answer_callback db tid (Callback.answer ans qid) now).2 = AnswerOutcome.complete)
    ∧ ((handle_answer_callback db tid (Callback.answer ans qid) now).1.convStates
        = db.convStates.map (fun c =>
            if c.telegram_id == tid then { c with state := none, current_question_id := none }
            else c))
    ∧ ((handle_answer_callback db tid (Callback.skip qid) now).2 = AnswerOutcome.complete)
    ∧ ((handle_answer_callback db tid (Callback.skip qid) now).1.convStates
        = db.convStates.map (fun c =>
            if c.telegram_id == tid then { c with state := none, current_question_id := none }
            else c)) := by
  have hs := handle_skip_full db tid qid now cs q h1 h2 h4
  have ha := handle_answer_full db tid qid now ans cs u q h1 h2 h6 h3 h4
  refine ⟨?_, ?_, ?_, ?_⟩
  · rw [ha]
    simp only [advanceOutcome, h5]
  · rw [ha]
    show advancedConvStates db tid q = _
    simp only [advancedConvStates, h5]
  · rw [hs]
    simp only [advanceOutcome, h5]
  · rw [hs]
    show advancedConvStates db tid q = _
    simp only [advancedConvStates, h5]

/-- Witness for the amended C4. -/
theorem completion_nulls_question_and_mode_only_witness :
    (handle_answer_callback dbDone 100 (Callback.answer "Yes 😊" 2) 7).2
      = AnswerOutcome.complete :=
  (completion_nulls_question_and_mode_only dbDone 100 2 7 "Yes 😊"
    ⟨100, some 2, some "s", some "journaling"⟩ exUser exQ2
    rfl rfl rfl rfl rfl (by decide)).1

/-- Claim C5: the mode invariant — mode = "journaling" iff both the current
question id and the session id are non-null — holds for every row after any
single operation on an invariant-satisfying table with unique telegram ids,
and for every row reachable by any operation sequence from an empty
conversation-state table. -/
theorem mode_invariant_preserved (db db0 : DB) (op : Op) (ops : List Op)
    (hn : TidsNodup db) (hinv : DBInv db) (h0 : db0.convStates = []) :
    (DBInv (step db op) ∧ TidsNodup (step db op)) ∧ DBInv (runOps db0 ops) :=
  ⟨step_preserves db op hn hinv,
   (runOps_preserves ops db0 (tids_of_empty db0 h0) (dbinv_of_empty db0 h0)).1⟩

/-- Witness for C5: the invariant after the full two-question scenario. -/
theorem mode_invariant_preserved_witness :
    DBInv (runOps dbScen
      [Op.startSession 100 none "sess",
       Op.submitAnswer 100 (Callback.answer "yes" 1) 11,
       Op.submitAnswer 100 (Callback.skip 2) 12]) :=
  (mode_invariant_preserved dbScen dbScen (Op.startSession 100 none "sess")
    [Op.startSession 100 none "sess",
     Op.submitAnswer 100 (Callback.answer "yes" 1) 11,
     Op.submitAnswer 100 (Callback.skip 2) 12]
    (by decide) (by decide) rfl).2

/-- Claim C6, counterexample: an input list repeating "09:00" produces two
persisted rows for the same time-of-day, so the listing is not
duplicate-free. -/
theorem duplicate_times_in_input_persisted :
    get_user_schedules (add_user_schedule dbOne 100 ["09:00", "09:00"] none) 100
      = [("09:00", true), ("09:00", true)]
    ∧ ¬ ((get_user_schedules (add_user_schedule dbOne 100 ["09:00", "09:00"] none) 100).map
          Prod.fst).Nodup := by
  decide

/-- Claim C6, amended: a schedule registration replaces the user's entire
schedule set (delete-then-insert) with exactly the given times in input
order, each enabled — without deduplication of the input list — and a
second registration replaces the first entirely, so overlapping calls leave
exactly the second list. -/
theorem set_schedules_replaces_without_input_dedup (db : DB) (tid : Int)
    (times times2 : List String) (tz tz2 : Option String) (u : User)
    (hu : queryUser db tid = some u) :
    (get_user_schedules (add_user_schedule db tid times tz) tid
       = times.map (fun t => (t, true)))
    ∧ (get_user_schedules
         (add_user_schedule (add_user_schedule db tid times tz) tid times2 tz2) tid
       = times2.map (fun t => (t, true))) := by
  obtain ⟨u', hu', _⟩ := queryUser_add_user_schedule db tid times tz u hu
  exact ⟨set_then_list db tid times tz u hu, set_then_list _ tid times2 tz2 u' hu'⟩

/-- Witness for the amended C6. -/
theorem set_schedules_replaces_without_input_dedup_witness :
    get_user_schedules (add_user_schedule dbOne 100 ["09:00", "20:00"] (some "UTC")) 100
      = [("09:00", true), ("20:00", true)] :=
  (set_schedules_replaces_without_input_dedup dbOne 100 ["09:00", "20:00"] ["20:00"]
    (some "UTC") none exUser rfl).1

/-- Claim C7, counterexample: erasing a user deletes the user's Response
and Schedule rows and the User row itself, but the ConversationState row
survives — a residual row the claim forbids. -/
theorem conversation_state_survives_erasure :
    (erase_user_data dbFull 100).users = []
    ∧ (erase_user_data dbFull 100).responses = []
    ∧ (erase_user_data dbFull 100).schedules = []
    ∧ (erase_user_data dbFull 100).convStates
        = [⟨100, some 1, some "s", some "journaling"⟩]
    ∧ (erase_user_data dbFull 100).convStates ≠ [] := by
  decide

/-- Claim C7, amended: erase-user-data deletes the User row and, through the
cascading relationships, every Response and Schedule row of that user, but
never touches the ConversationState table; a second consecutive call finds
no user and is a no-op raising no error. -/
theorem erase_cascades_except_conversation_state (db : DB) (tid : Int) (u : User)
    (hu : queryUser db tid = some u)
    (hn : (db.users.map (fun x => x.telegram_id)).Nodup) :
    ((erase_user_data db tid).convStates = db.convStates)
    ∧ ((erase_user_data db tid).users.filter (fun v => v.telegram_id == tid) = [])
    ∧ ((erase_user_data db tid).responses.filter (fun r => r.user_id == u.id) = [])
    ∧ ((erase_user_data db tid).schedules.filter (fun s => s.user_id == u.id) = [])
    ∧ (erase_user_data (erase_user_data db tid) tid = erase_user_data db tid) := by
  refine ⟨?_, erase_users_filter db tid u hn hu, ?_, ?_, ?_⟩
  · rw [erase_eq db tid u hu]
  · rw [erase_eq db tid u hu]
    exact filter_not_filter db.responses (fun r => r.user_id == u.id)
  · rw [erase_eq db tid u hu]
    exact filter_not_filter db.schedules (fun s => s.user_id == u.id)
  · exact erase_eq_none _ tid (erase_queryUser db tid u hn hu)

/-- Witness for the amended C7. -/
theorem erase_cascades_except_conversation_state_witness :
    (erase_user_data dbFull 100).convStates = dbFull.convStates :=
  (erase_cascades_except_conversation_state dbFull 100 exUser rfl (by decide)).1

/-- Claim C8, counterexample: the time-of-day "banana" is not a valid
zero-padded 24-hour "HH:MM" string, yet registering it raises no error and
persists an enabled schedule row carrying it. -/
theorem invalid_time_persisted :
    specValidTime "banana" = false
    ∧ get_user_schedules (add_user_schedule dbOne 100 ["banana"] none) 100
        = [("banana", true)]
    ∧ (add_user_schedule dbOne 100 ["banana"] none).schedules = [⟨1, "banana", true⟩] := by
  decide

/-- Claim C8, amended: the schedule registry performs no validation: any
time-of-day string, valid "HH:MM" or not, is persisted as an enabled row,
and any non-empty timezone string is written to the user row unchecked; no
error is signalled (only the in-memory job registration of
`JournalScheduler.add_job` swallows the resulting parse failure). -/
theorem schedule_input_not_validated (db : DB) (tid : Int) (t : String) (tz : Option String)
    (tzv : String) (u : User)
    (hu : queryUser db tid = some u) (ht : specValidTime t = false) (htzv : tzv ≠ "") :
    (get_user_schedules (add_user_schedule db tid [t] tz) tid = [(t, true)])
    ∧ (queryUser (add_user_schedule db tid [t] (some tzv)) tid
        = some { u with timezone := tzv }) :=
  ⟨set_then_list db tid [t] tz u hu, queryUser_add_tz db tid [t] tzv u hu htzv⟩

/-- Witness for the amended C8. -/
theorem schedule_input_not_validated_witness :
    get_user_schedules (add_user_schedule dbOne 100 ["banana"] none) 100
      = [("banana", true)] :=
  (schedule_input_not_validated dbOne 100 "banana" none "Mars/Olympus" exUser
    rfl (by decide) (by decide)).1

/-- Claim C9: the streak is 0 with no responses; on consecutive calendar
dates ending today or yesterday it equals the count of covered days; and at
a gap of more than one uncovered day the dates past the gap are ignored —
the count is whatever the dates reachable from the most recent response
yield. -/
theorem streak_consecutive_days (today t : Int) (k : Nat) (pre : List Int)
    (lastd d : Int) (rest : List Int)
    (h1 : t = today ∨ t = today - 1) (h2 : pre.getLast? = some lastd)
    (h3 : lastd - d ≥ 3) :
    (get_user_streak today [] = 0)
    ∧ (get_user_streak today (descRun t k) = k)
    ∧ (get_user_streak today (pre ++ d :: rest) = get_user_streak today pre) := by
  refine ⟨rfl, ?_, ?_⟩
  · cases k with
    | zero => rfl
    | succ k =>
      rw [get_user_streak_cons today _ (by simp [descRun]),
          streakLoop_descRun (k + 1) today t 0 h1]
      simp
  · have hpre : pre ≠ [] := by
      intro h
      rw [h] at h2
      cases h2
    rw [get_user_streak_cons today _ (by simp [hpre]),
        get_user_streak_cons today pre hpre,
        streakLoop_gap pre today 0 lastd d rest h2 h3]

/-- Witness for C9: three consecutive days ending today give streak 3. -/
theorem streak_consecutive_days_witness :
    get_user_streak 10 (descRun 10 3) = 3 :=
  (streak_consecutive_days 10 10 3 [10, 9] 9 5 [] (Or.inl rfl) (by decide) (by decide)).2.1

/-- Claim C10: every generated keyboard ends with the skip row; a question
whose text matches no bank entry gets exactly the generic yes/no row plus
the skip row; and the keyboard depends only on the question's text and id —
the bank lookup is keyed solely on exact text equality. -/
theorem keyboard_skip_and_fallback (qa qb : Question)
    (h1 : qa.question_text = qb.question_text) (h2 : qa.id = qb.id) :
    ((get_question_options qa).getLast? = some (skipRow qa.id))
    ∧ (QUESTION_BANK.find? (fun b => b.question_text == qa.question_text) = none →
         get_question_options qa = [yesNoRow qa.id, skipRow qa.id])
    ∧ (get_question_options qa = get_question_options qb) := by
  refine ⟨?_, ?_, ?_⟩
  · exact getLast?_append_single _ _
  · intro hf
    simp only [get_question_options, hf]
    rfl
  · simp only [get_question_options, h1, h2]

/-- Witness for C10: the non-bank question gets the yes/no fallback plus
skip. -/
theorem keyboard_skip_and_fallback_witness :
    get_question_options exQOther = [yesNoRow exQOther.id, skipRow exQOther.id] :=
  (keyboard_skip_and_fallback exQOther exQOther rfl rfl).2.1 (by decide)

end TgBotty
